import Mathlib

/-!
Shallow embedding of the Synthia assistant's agent-orchestration core
(`chat/services/orchestrator.py`, `chat/services/llm_factory.py`,
`chat/tools/*.py`, `chat/models.py`).  Python/JSON values are modelled by
`JVal`; Python's int/float distinction is collapsed into a single rational
constructor `jnum`, which is faithful for every property stated here (the
distinction would only affect numeric string formatting and sequence
repetition, neither of which any claim observes).  External boundaries
(OpenAI completion endpoint, `json.loads`, the Todoist HTTP API) are
parameters of the embedding; exceptions are modelled with explicit
error results and possible non-termination of the Todoist pagination
loop with an explicit `diverge` outcome.
-/

namespace Synthia

/-- Python/JSON values as the tools observe them: `jnull` is Python `None`
(JSON `null`), numbers are collapsed to rationals. -/
inductive JVal : Type where
  | jnull : JVal
  | jbool : Bool → JVal
  | jnum : ℚ → JVal
  | jstr : String → JVal
  | jarr : List JVal → JVal
  | jobj : List (String × JVal) → JVal
  deriving Repr

/-- Keyword arguments of a tool call, the result of `json.loads` on the raw
argument payload (a Python dict rendered as an association list). -/
abbrev Kwargs := List (String × JVal)

/-- Python truthiness (`if v:`) on the embedded values. -/
def pyTruthy : JVal → Bool
  | .jnull => false
  | .jbool b => b
  | .jnum q => q != 0
  | .jstr s => s != ""
  | .jarr xs => !xs.isEmpty
  | .jobj fs => !fs.isEmpty

/-- Numeric view used by Python arithmetic: numbers are themselves and
booleans coerce (`True` is `1`, `False` is `0`). -/
def numVal : JVal → Option ℚ
  | .jnum q => some q
  | .jbool b => some (if b then 1 else 0)
  | _ => none

/-- Python `x + y`: numeric addition, string or list concatenation,
otherwise a `TypeError`. -/
def pyAdd (a b : JVal) : Except String JVal :=
  match numVal a, numVal b with
  | some qa, some qb => .ok (.jnum (qa + qb))
  | _, _ =>
    match a, b with
    | .jstr s, .jstr t => .ok (.jstr (s ++ t))
    | .jarr s, .jarr t => .ok (.jarr (s ++ t))
    | _, _ => .error "TypeError: unsupported operand type(s) for +"

/-- Python `x - y`: numeric only, otherwise `TypeError`. -/
def pySub (a b : JVal) : Except String JVal :=
  match numVal a, numVal b with
  | some qa, some qb => .ok (.jnum (qa - qb))
  | _, _ => .error "TypeError: unsupported operand type(s) for -"

/-- Python `x * y` restricted to numbers (sequence repetition is not
modelled; no claim exercises it). -/
def pyMul (a b : JVal) : Except String JVal :=
  match numVal a, numVal b with
  | some qa, some qb => .ok (.jnum (qa * qb))
  | _, _ => .error "TypeError: unsupported operand type(s) for *"

/-- Python `x / y` (true division) on numbers, otherwise `TypeError`.
The zero-divisor case is checked by the calculator before calling this. -/
def pyDiv (a b : JVal) : Except String JVal :=
  match numVal a, numVal b with
  | some qa, some qb => .ok (.jnum (qa / qb))
  | _, _ => .error "TypeError: unsupported operand type(s) for /"

/-- Python `y == 0`: true exactly for the numeric-equal-to-zero values
(`0`, `0.0`, `False`). -/
def pyEqZero (v : JVal) : Bool :=
  match numVal v with
  | some q => q == 0
  | none => false

mutual

/-- Python `str(v)` on embedded values.  Numeric rendering abstracts
Python's int/float formatting as the rational's own rendering; no claim
depends on the digits produced. -/
def pyStr : JVal → String
  | .jnull => "None"
  | .jbool b => if b then "True" else "False"
  | .jnum q => toString q
  | .jstr s => s
  | .jarr xs => "[" ++ String.intercalate ", " (pyStrList xs) ++ "]"
  | .jobj fs => "\x7b" ++ String.intercalate ", " (pyStrFields fs) ++ "\x7d"

/-- Renderings of the elements of an embedded list (container elements use
their `str` form; Python would use `repr`, a difference no claim observes). -/
def pyStrList : List JVal → List String
  | [] => []
  | x :: xs => pyStr x :: pyStrList xs

/-- Renderings of the fields of an embedded dict. -/
def pyStrFields : List (String × JVal) → List String
  | [] => []
  | (k, v) :: fs => (k ++ ": " ++ pyStr v) :: pyStrFields fs

end

/-- Python `v == s` for a string literal `s`: true exactly when `v` is the
equal string (any non-string value compares unequal). -/
def jIsStr (v : JVal) (s : String) : Bool :=
  match v with
  | .jstr t => t == s
  | _ => false

/-- Python `kwargs.get(k)`: the stored value, or `None` when absent. -/
def kwget (kwargs : Kwargs) (k : String) : JVal :=
  match kwargs.lookup k with
  | some v => v
  | none => .jnull

/-- The `CalculatorTool.execute` body (`chat/tools/calculator.py`).  The
Python function returns a `str`, or falls off the end returning `None`
(modelled as `Option String`), or raises (for example `None + None`),
modelled as `Except.error`. -/
def calcExecute (kwargs : Kwargs) : Except String (Option String) :=
  let x := kwget kwargs "x"
  let y := kwget kwargs "y"
  let operation := kwget kwargs "operation"
  if jIsStr operation "add" then (pyAdd x y).map (fun v => some (pyStr v))
  else if jIsStr operation "subtract" then (pySub x y).map (fun v => some (pyStr v))
  else if jIsStr operation "multiply" then (pyMul x y).map (fun v => some (pyStr v))
  else if jIsStr operation "divide" then
    if pyEqZero y then .ok (some "ERROR: You can\x27t divide by zero!")
    else (pyDiv x y).map (fun v => some (pyStr v))
  else .ok none

/-- Outcome of running a piece of Python code: normal return, an uncaught
exception (carrying the `str` of the exception), or non-termination (the
unbounded Todoist pagination loop). -/
inductive PyOutcome (α : Type) : Type where
  | ok : α → PyOutcome α
  | exn : String → PyOutcome α
  | diverge : PyOutcome α
  deriving Repr

/-- HTTP methods used by the Todoist tools. -/
inductive HttpMethod : Type where
  | get : HttpMethod
  | post : HttpMethod
  | delete : HttpMethod
  deriving Repr, DecidableEq

/-- A response object as the tools observe it: `status_code`, `text`, and
the result of calling `r.json()` (parsed body, or the exception it raises
on a non-JSON body). -/
structure HttpResponse where
  status_code : Int
  text : String
  json : Except String JVal

/-- An outbound HTTP request: method, url, query params and JSON payload.
The constant `Authorization` header built from `settings.TODOIST_API_KEY`
is not modelled (no claim observes it). -/
structure HttpRequest where
  method : HttpMethod
  url : String
  params : List (String × JVal)
  payload : Option Kwargs

/-- The network: delivers a response, or raises (connection errors and the
like), modelled as `Except.error`. -/
def HttpClient : Type := HttpRequest → Except String HttpResponse

/-- External collaborators of a tool execution: the HTTP boundary and a
fuel bound for the Todoist pagination loop (exhausting it yields
`PyOutcome.diverge`, the embedding of an endless cursor chain). -/
structure ToolEnv where
  http : HttpClient
  fuel : Nat

/-- Behaviour of the standard-library `json.loads` on raw tool-call
argument strings: the parsed dict, or `none` for `json.JSONDecodeError`. -/
def JsonLoads : Type := String → Option Kwargs

/-- Python `d.get(k, dflt)`: requires a dict receiver (anything else raises
`AttributeError`). -/
def jGet (v : JVal) (k : String) (dflt : JVal) : Except String JVal :=
  match v with
  | .jobj fs => .ok ((fs.lookup k).getD dflt)
  | _ => .error ("AttributeError: object has no " ++ "get")

/-- Python `d[k]` on a dict: the value, or `KeyError`; non-dict receivers
raise `TypeError`. -/
def jIndex (v : JVal) (k : String) : Except String JVal :=
  match v with
  | .jobj fs =>
    match fs.lookup k with
    | some x => .ok x
    | none => .error ("KeyError: \x27" ++ k ++ "\x27")
  | _ => .error "TypeError: value is not subscriptable"

/-- View of a value as a Python iterable for `list.extend`; only JSON
arrays are modelled as iterable (a string `results` field never occurs in
the Todoist responses the claims exercise). -/
def jToList (v : JVal) : Except String (List JVal) :=
  match v with
  | .jarr xs => .ok xs
  | _ => .error "TypeError: value is not iterable"

/-- Base URL of the Todoist task endpoints (`chat/tools/todoist.py`). -/
def todoistTasksUrl : String := "https://api.todoist.com/api/v1/tasks"

/-- The `CreateTask.execute` body: posts the non-`None` kwargs as the JSON
payload and folds every expected failure into returned text. -/
def createTaskExecute (env : ToolEnv) (kwargs : Kwargs) : String :=
  let payload := kwargs.filter (fun kv => match kv.2 with | .jnull => false | _ => true)
  match env.http ⟨.post, todoistTasksUrl, [], some payload⟩ with
  | .error e => "System Error: " ++ e
  | .ok r =>
    if r.status_code == 200 || r.status_code == 201 then
      match (do
        let data ← r.json
        let idv ← jIndex data "id"
        let cv ← jIndex data "content"
        let pr ← jGet data "priority" (.jstr "Default")
        let idS := pyStr idv
        let cS := pyStr cv
        let pS := pyStr pr
        pure s!"Task created. ID: {idS}, Content: {cS}, Priority: {pS}") with
      | .ok s => s
      | .error e => "System Error: " ++ e
    else
      let sc := r.status_code
      let tx := r.text
      s!"Error {sc}: {tx}"

/-- One task line of the `GetTasks` result listing (built outside the
`try`, so a malformed task dict raises out of `execute`). -/
def formatTask (task : JVal) : Except String String := do
  let dueV ← jIndex task "due"
  let due ← if pyTruthy dueV then (jIndex dueV "date").map pyStr else pure "no deadline"
  let idv ← jIndex task "id"
  let cv ← jIndex task "content"
  let pv ← jIndex task "priority"
  let idS := pyStr idv
  let cS := pyStr cv
  let pS := pyStr pv
  pure s!"[ID:{idS}] {cS}, Due: {due}, Priority:{pS}"

/-- Python `response_data.get(\x27results\x27, [])` followed by
`all_tasks.extend(...)`. -/
def getTasksResults (body : JVal) : Except String (List JVal) := do
  let res ← jGet body "results" (.jarr [])
  jToList res

/-- The `while True` pagination loop of `GetTasks.execute`, following
`next_cursor` until it is falsy; exceptions inside it are `exn` (caught by
the surrounding `try` in `getTasksExecute`), and fuel exhaustion models an
endless cursor chain. -/
def getTasksLoop (env : ToolEnv) : Nat → JVal → List JVal → PyOutcome (List JVal × HttpResponse)
  | 0, _, _ => .diverge
  | fuel + 1, cursor, acc =>
    match env.http ⟨.get, todoistTasksUrl, [("cursor", cursor), ("limit", .jnum 20)], none⟩ with
    | .error e => .exn e
    | .ok r =>
      match (do
        let body ← r.json
        let tasks ← getTasksResults body
        let nc ← jGet body "next_cursor" .jnull
        pure (tasks, nc)) with
      | .error e => .exn e
      | .ok (tasks, nc) =>
        if pyTruthy nc then getTasksLoop env fuel nc (acc ++ tasks)
        else .ok (acc ++ tasks, r)

/-- The formatting stage of `GetTasks.execute`, run after the `try` block:
a non-200 status becomes text, and malformed tasks raise. -/
def getTasksFormat (r : HttpResponse) (tasks : List JVal) : PyOutcome String :=
  if r.status_code == 200 then
    match tasks.mapM formatTask with
    | .error e => .exn e
    | .ok lines => .ok (String.intercalate "\n" lines)
  else
    let sc := r.status_code
    let tx := r.text
    .ok s!"Error {sc}: {tx}"

/-- The `GetTasks.execute` body: a single filtered query, or the paginated
full listing, then the formatting stage. -/
def getTasksExecute (env : ToolEnv) (kwargs : Kwargs) : PyOutcome String :=
  let filters := kwget kwargs "filter"
  if pyTruthy filters then
    match env.http ⟨.get, todoistTasksUrl ++ "/filter", [("query", filters)], none⟩ with
    | .error e => .ok ("System Error: " ++ e)
    | .ok r =>
      match (do
        let body ← r.json
        getTasksResults body) with
      | .error e => .ok ("System Error: " ++ e)
      | .ok tasks => getTasksFormat r tasks
  else
    match getTasksLoop env env.fuel .jnull [] with
    | .diverge => .diverge
    | .exn e => .ok ("System Error: " ++ e)
    | .ok (tasks, r) => getTasksFormat r tasks

/-- The `CloseTask.execute` body. -/
def closeTaskExecute (env : ToolEnv) (kwargs : Kwargs) : String :=
  let task_id := kwget kwargs "task_id"
  if !pyTruthy task_id then
    "Error: Argument \x27task_id\x27 is missing. Please provide the ID of the task you want to close."
  else
    let tid := pyStr task_id
    match env.http ⟨.post, s!"https://api.todoist.com/api/v1/tasks/{tid}/close", [], none⟩ with
    | .error e => "System Error: " ++ e
    | .ok r =>
      if r.status_code == 200 || r.status_code == 204 then
        s!"Successfully closed task (ID: {tid})."
      else
        let sc := r.status_code
        let tx := r.text
        s!"Error closing task {tid}: {sc} - {tx}"

/-- The `UpdateTask.execute` body (note: no missing-`task_id` guard in the
source; a missing id is rendered as `None` in the URL). -/
def updateTaskExecute (env : ToolEnv) (kwargs : Kwargs) : String :=
  let task_id := kwget kwargs "task_id"
  let payload := kwargs.filter (fun kv =>
    (match kv.2 with | .jnull => false | _ => true) && kv.1 != "task_id")
  if payload.isEmpty then "No data to update"
  else
    let tid := pyStr task_id
    match env.http ⟨.post, s!"https://api.todoist.com/api/v1/tasks/{tid}", [], some payload⟩ with
    | .error e => "System Error: " ++ e
    | .ok r =>
      if r.status_code == 200 then
        s!"Successfully updated task (ID: {tid})."
      else
        let sc := r.status_code
        let tx := r.text
        s!"Error updating task {tid}: {sc} - {tx}"

/-- The `DeleteTask.execute` body. -/
def deleteTaskExecute (env : ToolEnv) (kwargs : Kwargs) : String :=
  let task_id := kwget kwargs "task_id"
  if !pyTruthy task_id then
    "Error: Argument \x27task_id\x27 is missing. Please provide the ID of the task you want to delete."
  else
    let tid := pyStr task_id
    match env.http ⟨.delete, s!"https://api.todoist.com/api/v1/tasks/{tid}", [], none⟩ with
    | .error e => "System Error: " ++ e
    | .ok r =>
      if r.status_code == 200 || r.status_code == 204 then
        s!"Successfully deleted task (ID: {tid})."
      else
        let sc := r.status_code
        let tx := r.text
        s!"Error deleting task {tid}: {sc} - {tx}"

/-- The six tools registered by `ToolRegistry.__init__`
(`chat/tools/registry.py`). -/
inductive Tool : Type where
  | calculator : Tool
  | createTask : Tool
  | closeTask : Tool
  | getTasks : Tool
  | updateTask : Tool
  | deleteTask : Tool
  deriving Repr, DecidableEq

/-- The `name` property of each tool class. -/
def toolName : Tool → String
  | .calculator => "Calculator"
  | .createTask => "CreateTask"
  | .closeTask => "CloseTask"
  | .getTasks => "GetTasks"
  | .updateTask => "UpdateTask"
  | .deleteTask => "DeleteTask"

/-- The `description` property of each tool class. -/
def toolDescription : Tool → String
  | .calculator => "A tool for simple mathematical operations."
  | .createTask => "Create a new task on to-do list / Todoist"
  | .closeTask => "Mark task as completed / Close task. If you don\x27t know the task ID, use GetTasks to check it."
  | .getTasks => "Retrieve active tasks."
  | .updateTask => "Updates an existing task. If you don\x27t know the task ID, use GetTasks to check it."
  | .deleteTask => "Delete task (if unnecessary or outdated). If you don\x27t know the task ID, use GetTasks to check it."

/-- The `parameters` schema of `CalculatorTool`. -/
def calculatorParameters : JVal :=
  .jobj [
    ("type", .jstr "object"),
    ("properties", .jobj [
      ("operation", .jobj [
        ("type", .jstr "string"),
        ("enum", .jarr [.jstr "add", .jstr "subtract", .jstr "multiply", .jstr "divide"]),
        ("description", .jstr "The type of mathematical operation to perform.")]),
      ("x", .jobj [
        ("type", .jstr "number"),
        ("description", .jstr "First number.")]),
      ("y", .jobj [
        ("type", .jstr "number"),
        ("description", .jstr "Second number.")])]),
    ("required", .jarr [.jstr "operation", .jstr "x", .jstr "y"])]

/-- The `parameters` schema of `CreateTask`. -/
def createTaskParameters : JVal :=
  .jobj [
    ("type", .jstr "object"),
    ("properties", .jobj [
      ("content", .jobj [
        ("type", .jstr "string"),
        ("description", .jstr "A short, concise TITLE of the task. Do NOT include date, time, or priority here.")]),
      ("description", .jobj [
        ("type", .jstr "string"),
        ("description", .jstr "If you don\x27t have any additional, necessary information beyond the title itself, you MUST leave this field blank (null/empty). NEVER copy the contents of the \x27content\x27 field here.")]),
      ("priority", .jobj [
        ("type", .jstr "integer"),
        ("description", .jstr "Priority level. 4 is HIGHEST (Red/Urgent), 1 is LOWEST (Natural). Default is 1."),
        ("enum", .jarr [.jnum 1, .jnum 2, .jnum 3, .jnum 4])]),
      ("due_string", .jobj [
        ("type", .jstr "string"),
        ("description", .jstr "Natural language date/time (e.g., \"today\", \"tomorrow\", \"next Monday at 10am\") or date string. Extract strictly from user prompt.")])]),
    ("required", .jarr [.jstr "content"])]

/-- The `parameters` schema of `GetTasks`. -/
def getTasksParameters : JVal :=
  .jobj [
    ("type", .jstr "object"),
    ("properties", .jobj [
      ("filter", .jobj [
        ("type", .jstr "string"),
        ("description", .jstr "Filter by any supported filter (the filter field only accepts native Todoist filters, e.g., \"today\", \"tomorrow\", \"overdue\"...). Multiple filters (using the comma , operator) are not supported. If the user asks to search for specific keywords, topics, or contents (e.g., \"shopping\"), YOU MUST leave this field empty, fetch all tasks, and find the matching tasks yourself.")])]),
    ("required", .jarr [])]

/-- The `parameters` schema of `CloseTask`. -/
def closeTaskParameters : JVal :=
  .jobj [
    ("type", .jstr "object"),
    ("properties", .jobj [
      ("task_id", .jobj [
        ("type", .jstr "string"),
        ("description", .jstr "ID of the task to close. Required. Don\x27t guess the ID if you don\x27t know it, use GetTasks.")])]),
    ("required", .jarr [.jstr "task_id"])]

/-- The `parameters` schema of `UpdateTask`. -/
def updateTaskParameters : JVal :=
  .jobj [
    ("type", .jstr "object"),
    ("properties", .jobj [
      ("task_id", .jobj [
        ("type", .jstr "string"),
        ("description", .jstr "ID of the task to update. Required. Don\x27t guess the ID if you don\x27t know it, use GetTasks.")]),
      ("content", .jobj [
        ("type", .jstr "string"),
        ("description", .jstr "Updated task content. Omit this field to keep it unchanged.")]),
      ("description", .jobj [
        ("type", .jstr "string"),
        ("description", .jstr "Updated task description. Omit this field to keep it unchanged.")]),
      ("priority", .jobj [
        ("type", .jstr "integer"),
        ("description", .jstr "Updated task priority (1-4, where 4 is highest). Omit this field to keep it unchanged."),
        ("enum", .jarr [.jnum 1, .jnum 2, .jnum 3, .jnum 4])]),
      ("due_string", .jobj [
        ("type", .jstr "string"),
        ("description", .jstr "Natural language date/time (e.g., \"today\", \"tomorrow\", \"next Monday at 10am\") or date string (RFC 3339 format or similar). Omit this field to keep it unchanged.")])]),
    ("required", .jarr [.jstr "task_id"])]

/-- The `parameters` schema of `DeleteTask`. -/
def deleteTaskParameters : JVal :=
  .jobj [
    ("type", .jstr "object"),
    ("properties", .jobj [
      ("task_id", .jobj [
        ("type", .jstr "string"),
        ("description", .jstr "ID of the task to delete. Required. Don\x27t guess the ID if you don\x27t know it, use GetTasks.")])]),
    ("required", .jarr [.jstr "task_id"])]

/-- The `parameters` property of each tool class. -/
def toolParameters : Tool → JVal
  | .calculator => calculatorParameters
  | .createTask => createTaskParameters
  | .closeTask => closeTaskParameters
  | .getTasks => getTasksParameters
  | .updateTask => updateTaskParameters
  | .deleteTask => deleteTaskParameters

/-- Uniform view of `execute` across the registered tools: the Todoist
tools absorb every expected failure into returned text; the calculator may
raise (`exn`) or return `None` (`ok none`); `GetTasks` may additionally
diverge on an endless cursor chain. -/
def execTool (t : Tool) (env : ToolEnv) (kwargs : Kwargs) : PyOutcome (Option String) :=
  match t with
  | .calculator =>
    match calcExecute kwargs with
    | .ok v => .ok v
    | .error e => .exn e
  | .createTask => .ok (some (createTaskExecute env kwargs))
  | .closeTask => .ok (some (closeTaskExecute env kwargs))
  | .getTasks =>
    match getTasksExecute env kwargs with
    | .ok s => .ok (some s)
    | .exn e => .exn e
    | .diverge => .diverge
  | .updateTask => .ok (some (updateTaskExecute env kwargs))
  | .deleteTask => .ok (some (deleteTaskExecute env kwargs))

/-- The registry contents in insertion order of the `self.tools` dict
literal in `ToolRegistry.__init__` (all six names are distinct, so dict
order is exactly this list). -/
def registryTools : List Tool :=
  [.calculator, .createTask, .closeTask, .getTasks, .updateTask, .deleteTask]

/-- The `ToolRegistry.get_tool` lookup (`self.tools.get(name)`). -/
def getTool (name : String) : Option Tool :=
  registryTools.find? (fun t => toolName t == name)

/-- The inner `function` record of a tool definition. -/
structure FunctionDef where
  name : String
  description : String
  parameters : JVal

/-- One element of the list built by `ToolRegistry.get_tools_definitions`. -/
structure ToolDef where
  type : String
  function : FunctionDef

/-- The `ToolRegistry.get_tools_definitions` body: one wrapper record per
registered tool, in registry order. -/
def getToolsDefinitions : List ToolDef :=
  registryTools.map (fun t => ⟨"function", ⟨toolName t, toolDescription t, toolParameters t⟩⟩)

/-- The `target_type` choices of `AIModel` (`chat/models.py`). -/
inductive ModelTarget : Type where
  | mainChat : ModelTarget
  | intentClassifier : ModelTarget
  | toolTodoist : ModelTarget
  deriving Repr, DecidableEq

/-- The `target_type` choices of `SystemPrompt`. -/
inductive PromptTarget : Type where
  | mainPersona : PromptTarget
  | intentClassifier : PromptTarget
  | toolTodoist : PromptTarget
  deriving Repr, DecidableEq

/-- One stored `Message` row of the conversation, in chronological order
inside `Db.history`; the timestamp is represented by list position. -/
structure StoredMessage where
  role : String
  content : String
  deriving Repr, DecidableEq

/-- The database as the orchestrator reads it: the `api_name` of the
active `AIModel` per target (none when no record is active), the
`(content, name)` of the active `SystemPrompt` per target, and the
conversation's messages. -/
structure Db where
  activeModel : ModelTarget → Option String
  activePrompt : PromptTarget → Option (String × String)
  history : List StoredMessage

/-- `AIModel.get_active_model_name`: the active record's `api_name`, else
the hardcoded `gpt-3.5-turbo` fallback. -/
def getActiveModelName (db : Db) (t : ModelTarget) : String :=
  (db.activeModel t).getD "gpt-3.5-turbo"

/-- `SystemPrompt.get_active_prompt`: `(content, name)` of the active
prompt, else the hardcoded fallback pair. -/
def getActivePrompt (db : Db) (t : PromptTarget) : String × String :=
  (db.activePrompt t).getD ("You are Synthia, the helpful AI assistant.", "Hardcoded Fallback")

/-- The conversation's override fields read by `_prepare_context`:
`ai_model.api_name` and `system_prompt.content`/`.name` when set. -/
structure Conv where
  ai_model : Option String
  system_prompt : Option (String × String)

/-- A role-tagged message dict of the completion context. -/
structure ChatMsg where
  role : String
  content : String
  deriving Repr, DecidableEq

/-- The query `Message.objects.filter(...).order_by(-timestamp)[:10]`
followed by `reversed(...)`: the last ten messages in chronological
order. -/
def recentHistory (history : List StoredMessage) : List StoredMessage :=
  (history.reverse.take 10).reverse

/-- The triple returned by `ConversationOrchestrator._prepare_context`. -/
structure PreparedContext where
  context : List ChatMsg
  modelName : String
  promptName : String

/-- The `_prepare_context` body: resolve model and persona with
conversation overrides first, then global active defaults, and prepend the
single system message to the recent history. -/
def prepareContext (db : Db) (conv : Conv) : PreparedContext :=
  let modelName :=
    match conv.ai_model with
    | some apiName => apiName
    | none => getActiveModelName db .mainChat
  let sp :=
    match conv.system_prompt with
    | some p => p
    | none => getActivePrompt db .mainPersona
  let systemPrompt : List ChatMsg := [⟨"system", sp.1⟩]
  let historyFromDb := (recentHistory db.history).map (fun m => (⟨m.role, m.content⟩ : ChatMsg))
  ⟨systemPrompt ++ historyFromDb, modelName, sp.2⟩

/-- The `function` field of an OpenAI tool call. -/
structure ToolCallFunction where
  name : String
  arguments : String
  deriving Repr, DecidableEq

/-- One tool call of an assistant completion message. -/
structure ToolCall where
  id : String
  function : ToolCallFunction
  deriving Repr, DecidableEq

/-- An assistant message returned by the completion endpoint; a Python
`tool_calls` of `None` and of `[]` are both falsy and both modelled as the
empty list. -/
structure AssistantMessage where
  content : String
  tool_calls : List ToolCall
  deriving Repr, DecidableEq

/-- One completion request issued by the orchestrator: the model the
service was constructed with, the message list, and the tool catalogue
passed as the `tools` argument (`none` when the argument was omitted). -/
structure Request where
  model : String
  messages : List ChatMsg
  tools : Option (List ToolDef)

/-- One row written by `Message.objects.create` for the assistant reply,
with the audit fields. -/
structure PersistedMessage where
  role : String
  content : String
  ai_model_used : String
  prompt_used_name : String
  deriving Repr, DecidableEq

/-- Observable outcome of one processed user message: the completion
requests issued in order, the rows persisted, the returned reply text, and
the final in-memory context list. -/
structure TurnResult where
  requests : List Request
  persisted : List PersistedMessage
  reply : String
  finalContext : List ChatMsg

/-- The raw OpenAI client call (`self.client.chat.completions.create`):
returns `response.choices[0].message`, or raises. -/
def LLMClient : Type := List ChatMsg → Option (List ToolDef) → Except String AssistantMessage

/-- What `OpenAIService.get_response` actually returns: the message object
on success, or — because the `except` clause returns a plain string — raw
user-facing text in the same return channel. -/
inductive GetResponseResult : Type where
  | message : AssistantMessage → GetResponseResult
  | errText : String → GetResponseResult
  deriving Repr, DecidableEq

/-- The literal string returned by `OpenAIService.get_response` when the
client raises (`chat/services/llm_factory.py`). -/
def llmErrorText : String :=
  "Error! There was a problem connecting to LLM. Please try again later."

/-- The `OpenAIService.get_response` body: every client exception is
caught and converted into the fixed user-facing string, returned through
the normal return channel. -/
def getResponse (client : LLMClient) (context : List ChatMsg)
    (tools : Option (List ToolDef)) : GetResponseResult :=
  match client context tools with
  | .ok msg => .message msg
  | .error _ => .errText llmErrorText

/-- Python `str(result)` as used in the tool-result f-string: the string
itself, or `None` when the calculator fell off the end. -/
def pyRetStr : Option String → String
  | some s => s
  | none => "None"

/-- Content of the system message appended after a tool execution in
`_handle_tool_usage`. -/
def toolInfoContent (funcName : String) (result : Option String) : String :=
  let resS := pyRetStr result
  s!"Tool {funcName} executed. Result: {resS}. Note: If the result indicates an error, inform the user about it truthfully."

/-- The completion service of one processed message, as the successful
responses the orchestrator receives call by call (call 0 is the intent
classifier; the failure path of `get_response` is modelled separately by
`getResponse`). -/
def Svc : Type := Nat → AssistantMessage

/-- The completion request built by `_classify_intent`: the active
intent-classifier prompt and model, with the user text appended after a
colon. -/
def classifierRequest (db : Db) (messageText : String) : Request :=
  let ip := getActivePrompt db .intentClassifier
  let modelName := getActiveModelName db .intentClassifier
  ⟨modelName, [⟨"system", ip.1 ++ ": " ++ messageText⟩], none⟩

/-- The `_get_normal_response` body: one completion request without tools,
one persisted assistant row with audit fields, reply returned. -/
def getNormalResponse (db : Db) (conv : Conv) (svc : Svc) (start : Nat) : TurnResult :=
  let pc := prepareContext db conv
  let respMsg := svc start
  { requests := [⟨pc.modelName, pc.context, none⟩],
    persisted := [⟨"assistant", respMsg.content, pc.modelName, pc.promptName⟩],
    reply := respMsg.content,
    finalContext := pc.context }

/-- Lines 118-126 of `_handle_tool_usage`: parse the first tool call's raw
arguments (empty dict on `JSONDecodeError`), resolve the tool by name, and
execute it — an unknown name is synthesized into an error string instead. -/
def firstToolOutcome (env : ToolEnv) (jl : JsonLoads) (tc : ToolCall) :
    PyOutcome (Option String) :=
  let funcName := tc.function.name
  let funcArgs := (jl tc.function.arguments).getD []
  match getTool funcName with
  | some t => execTool t env funcArgs
  | none => .ok (some s!"Error: Tool {funcName} not found.")

/-- The `_handle_tool_usage` body: one completion request with the tool
catalogue; if the response carries tool calls, only the first is executed,
one system-role result message is appended to the context, and a second
completion request without tools produces the reply; otherwise the first
response is the reply.  Exactly one assistant row is persisted on every
normal path. -/
def handleToolUsage (db : Db) (conv : Conv) (env : ToolEnv) (jl : JsonLoads)
    (svc : Svc) (start : Nat) : PyOutcome TurnResult :=
  let pc := prepareContext db conv
  let toolsDefs := getToolsDefinitions
  let respMsg := svc start
  let req1 : Request := ⟨pc.modelName, pc.context, some toolsDefs⟩
  match respMsg.tool_calls with
  | [] =>
    .ok { requests := [req1],
          persisted := [⟨"assistant", respMsg.content, pc.modelName, pc.promptName⟩],
          reply := respMsg.content,
          finalContext := pc.context }
  | tc :: _ =>
    let funcName := tc.function.name
    match firstToolOutcome env jl tc with
    | .exn e => .exn e
    | .diverge => .diverge
    | .ok result =>
      let toolInfo : ChatMsg := ⟨"system", toolInfoContent funcName result⟩
      let ctx2 := pc.context ++ [toolInfo]
      let req2 : Request := ⟨pc.modelName, ctx2, none⟩
      let finalResp := svc (start + 1)
      .ok { requests := [req1, req2],
            persisted := [⟨"assistant", finalResp.content, pc.modelName, pc.promptName⟩],
            reply := finalResp.content,
            finalContext := ctx2 }

/-- Python whitespace characters recognised by `str.strip()`. -/
def isPySpace (c : Char) : Bool :=
  c == ' ' || c == '\t' || c == '\n' || c == '\r' || c == '\x0b' || c == '\x0c'

/-- Python `s.strip()`. -/
def pyStrip (s : String) : String :=
  String.mk ((s.data.dropWhile isPySpace).reverse.dropWhile isPySpace).reverse

/-- Python `s.upper()` restricted to ASCII case mapping (the full Unicode
mapping differs only on exotic letters no claim exercises). -/
def pyUpper (s : String) : String :=
  String.mk (s.data.map Char.toUpper)

/-- The `handle_message` body: a separate classifier completion first,
then the tool flow exactly when the stripped, uppercased classifier reply
equals `YES`, else the plain flow. -/
def handleMessage (db : Db) (conv : Conv) (env : ToolEnv) (jl : JsonLoads)
    (svc : Svc) (messageText : String) : PyOutcome TurnResult :=
  let creq := classifierRequest db messageText
  let intent := (svc 0).content
  if pyUpper (pyStrip intent) == "YES" then
    match handleToolUsage db conv env jl svc 1 with
    | .ok r => .ok { r with requests := creq :: r.requests }
    | .exn e => .exn e
    | .diverge => .diverge
  else
    let r := getNormalResponse db conv svc 1
    .ok { r with requests := creq :: r.requests }

/-- Modelled from the spec: the system-message content claimed for the
Context Assembler — persona instruction, then a "Related Threads" block of
memory-search results joined with newlines, then the current local
date/time.  The spec fixes no separators, so this fixes one reading; the
orchestrator under test contains no such assembly at all (`search_memory`
of `chat/rag.py` has no caller), which the comparison theorems exploit
only through the block header's presence. -/
def specClaimedSystemContent (persona : String) (memories : List String)
    (now : String) : String :=
  persona ++ "\nRelated Threads:\n" ++ String.intercalate "\n" memories ++ "\n" ++ now

/-- Number of completion requests observed in an outcome (crashed or
diverged runs report none). -/
def requestCountOf : PyOutcome TurnResult → Nat
  | .ok r => r.requests.length
  | .exn _ => 0
  | .diverge => 0

/-- The messages a completed turn appended to the prepared context. -/
def appendedOf (db : Db) (conv : Conv) : PyOutcome TurnResult → List ChatMsg
  | .ok r => r.finalContext.drop (prepareContext db conv).context.length
  | .exn _ => []
  | .diverge => []

/-- Whether each completion request of a completed turn carried a tool
catalogue, in request order. -/
def toolsOfferedOf : PyOutcome TurnResult → List Bool
  | .ok r => r.requests.map (fun q => q.tools.isSome)
  | .exn _ => []
  | .diverge => []

/-- Whether the outcome is a normal return. -/
def isOkOutcome {α : Type} : PyOutcome α → Bool
  | .ok _ => true
  | .exn _ => false
  | .diverge => false

/-- Fixture database: active models and prompts for the main chat and the
intent classifier, and one stored user message. -/
def dbA : Db :=
  { activeModel := fun t =>
      match t with
      | .mainChat => some "gpt-5-nano"
      | .intentClassifier => some "gpt-4o-mini"
      | .toolTodoist => none,
    activePrompt := fun t =>
      match t with
      | .mainPersona => some ("P", "Persona")
      | .intentClassifier => some ("Decide if tools are needed. Answer YES or NO", "Intent")
      | .toolTodoist => none,
    history := [⟨"user", "What is 12 divided by 0?"⟩] }

/-- Fixture conversation with no overrides. -/
def convA : Conv := ⟨none, none⟩

/-- Fixture environment: the network always raises, and the pagination
fuel is zero (no Todoist call succeeds; the fixtures only exercise the
calculator). -/
def envA : ToolEnv := ⟨fun _ => .error "ConnectionError", 0⟩

/-- Raw argument payload requesting a division of 12 by 0. -/
def argsDivStr : String := "\x7b\"operation\": \"divide\", \"x\": 12, \"y\": 0\x7d"

/-- A raw argument payload that is not valid JSON. -/
def argsBadStr : String := "not json"

/-- Fixture `json.loads` behaviour: parses `argsDivStr` to its dict and
fails on everything else. -/
def jlA : JsonLoads := fun s =>
  if s == argsDivStr then
    some [("operation", .jstr "divide"), ("x", .jnum 12), ("y", .jnum 0)]
  else none

/-- A completion service that requests a `Calculator` tool call on every
completion. -/
def svcDivCall : Svc := fun _ =>
  ⟨"", [⟨"call_1", ⟨"Calculator", argsDivStr⟩⟩]⟩

/-- A completion service whose assistant turn carries two tool calls. -/
def svcTwoCalls : Svc := fun _ =>
  ⟨"", [⟨"call_1", ⟨"Calculator", argsDivStr⟩⟩, ⟨"call_2", ⟨"Calculator", argsDivStr⟩⟩]⟩

/-- A completion service requesting one `Calculator` call whose raw
arguments do not parse. -/
def svcBadArgs : Svc := fun _ =>
  ⟨"", [⟨"call_1", ⟨"Calculator", argsBadStr⟩⟩]⟩

/-- A completion service that classifies `NO` and then answers plainly. -/
def svcNoTool : Svc := fun n =>
  if n == 0 then ⟨"NO", []⟩ else ⟨"The answer is 4.", []⟩

/-- A completion service whose classifier reply is `  yes  ` (needing both
strip and uppercase) and whose main reply carries no tool calls. -/
def svcYes : Svc := fun n =>
  if n == 0 then ⟨"  yes  ", []⟩ else ⟨"Done.", []⟩

/-- An OpenAI client whose completion call always raises. -/
def clientFail : LLMClient := fun _ _ => .error "AuthenticationError"

/-- The system message the fixture division-by-zero call appends. -/
def toolInfoDiv : ChatMsg :=
  ⟨"system", toolInfoContent "Calculator" (some "ERROR: You can\x27t divide by zero!")⟩

/-- The turn result of the fixture tool-flow run driven by `svcDivCall`. -/
def rDiv : TurnResult :=
  { requests := [⟨(prepareContext dbA convA).modelName,
                  (prepareContext dbA convA).context, some getToolsDefinitions⟩,
                 ⟨(prepareContext dbA convA).modelName,
                  (prepareContext dbA convA).context ++ [toolInfoDiv], none⟩],
    persisted := [⟨"assistant", (svcDivCall 2).content,
                   (prepareContext dbA convA).modelName,
                   (prepareContext dbA convA).promptName⟩],
    reply := (svcDivCall 2).content,
    finalContext := (prepareContext dbA convA).context ++ [toolInfoDiv] }

/-- The parsed argument dict of `argsDivStr`. -/
def kwDiv : Kwargs := [("operation", .jstr "divide"), ("x", .jnum 12), ("y", .jnum 0)]

/-- Shape of `handleToolUsage` when the first response carries no tool
calls: the else-branch of `_handle_tool_usage`. -/
theorem handleToolUsage_eq_noCalls (db : Db) (conv : Conv) (env : ToolEnv)
    (jl : JsonLoads) (svc : Svc) (start : Nat)
    (h : (svc start).tool_calls = []) :
    handleToolUsage db conv env jl svc start = .ok
      { requests := [⟨(prepareContext db conv).modelName,
                      (prepareContext db conv).context, some getToolsDefinitions⟩],
        persisted := [⟨"assistant", (svc start).content,
                       (prepareContext db conv).modelName,
                       (prepareContext db conv).promptName⟩],
        reply := (svc start).content,
        finalContext := (prepareContext db conv).context } := by
  simp only [handleToolUsage, h]

/-- Shape of `handleToolUsage` when the first response carries tool calls
and the first call's execution returns normally. -/
theorem handleToolUsage_eq_withCall (db : Db) (conv : Conv) (env : ToolEnv)
    (jl : JsonLoads) (svc : Svc) (start : Nat) (tc : ToolCall)
    (rest : List ToolCall) (result : Option String)
    (hc : (svc start).tool_calls = tc :: rest)
    (hr : firstToolOutcome env jl tc = .ok result) :
    handleToolUsage db conv env jl svc start = .ok
      { requests := [⟨(prepareContext db conv).modelName,
                      (prepareContext db conv).context, some getToolsDefinitions⟩,
                     ⟨(prepareContext db conv).modelName,
                      (prepareContext db conv).context ++
                        [⟨"system", toolInfoContent tc.function.name result⟩], none⟩],
        persisted := [⟨"assistant", (svc (start + 1)).content,
                       (prepareContext db conv).modelName,
                       (prepareContext db conv).promptName⟩],
        reply := (svc (start + 1)).content,
        finalContext := (prepareContext db conv).context ++
          [⟨"system", toolInfoContent tc.function.name result⟩] } := by
  simp only [handleToolUsage, hc, hr]

/-- Shape of `handleToolUsage` when the first call's execution raises: the
exception escapes the orchestrator (it has no handler around
`tool.execute`). -/
theorem handleToolUsage_eq_exn (db : Db) (conv : Conv) (env : ToolEnv)
    (jl : JsonLoads) (svc : Svc) (start : Nat) (tc : ToolCall)
    (rest : List ToolCall) (e : String)
    (hc : (svc start).tool_calls = tc :: rest)
    (hr : firstToolOutcome env jl tc = .exn e) :
    handleToolUsage db conv env jl svc start = .exn e := by
  simp only [handleToolUsage, hc, hr]

/-- Shape of `handleToolUsage` when the first call's execution diverges. -/
theorem handleToolUsage_eq_diverge (db : Db) (conv : Conv) (env : ToolEnv)
    (jl : JsonLoads) (svc : Svc) (start : Nat) (tc : ToolCall)
    (rest : List ToolCall)
    (hc : (svc start).tool_calls = tc :: rest)
    (hr : firstToolOutcome env jl tc = .diverge) :
    handleToolUsage db conv env jl svc start = .diverge := by
  simp only [handleToolUsage, hc, hr]

/-- Completion-request bound of the tool flow: whatever the service and
tools do, at most two completion requests are issued. -/
theorem handleToolUsage_requestCount_le_two (db : Db) (conv : Conv)
    (env : ToolEnv) (jl : JsonLoads) (svc : Svc) (start : Nat) :
    requestCountOf (handleToolUsage db conv env jl svc start) ≤ 2 := by
  cases hc : (svc start).tool_calls with
  | nil =>
    rw [handleToolUsage_eq_noCalls db conv env jl svc start hc]
    simp [requestCountOf]
  | cons tc rest =>
    cases hr : firstToolOutcome env jl tc with
    | ok result =>
      rw [handleToolUsage_eq_withCall db conv env jl svc start tc rest result hc hr]
      simp [requestCountOf]
    | exn e =>
      rw [handleToolUsage_eq_exn db conv env jl svc start tc rest e hc hr]
      simp [requestCountOf]
    | diverge =>
      rw [handleToolUsage_eq_diverge db conv env jl svc start tc rest hc hr]
      simp [requestCountOf]

/-- C1, counterexample: there is no `toolIterationLimit` in the code, so
running the flow "with toolIterationLimit = 1" is just running the flow;
against a service that always requests another tool call it issues two
completion requests, exceeding the claimed bound of one. -/
theorem c1_counterexample :
    requestCountOf (handleToolUsage dbA convA envA jlA svcDivCall 1) = 2 ∧
    ¬ requestCountOf (handleToolUsage dbA convA envA jlA svcDivCall 1) ≤ 1 := by
  exact ⟨by rfl, by decide⟩

/-- C1, amended: the orchestrator has no iteration limit at all; for every
conversation and every completion-service behaviour, the tool flow
terminates after at most two completion requests (one with tools, and one
follow-up when the first response requested a tool call). -/
theorem c1_amended (db : Db) (conv : Conv) (env : ToolEnv) (jl : JsonLoads)
    (svc : Svc) (start : Nat) :
    requestCountOf (handleToolUsage db conv env jl svc start) ≤ 2 :=
  handleToolUsage_requestCount_le_two db conv env jl svc start

/-- C2, counterexample: the assistant turn carries two tool calls, yet the
loop appends a single system-role message and no tool-role turn at all —
the claimed one-tool-role-Turn-per-call with matching callIds is false. -/
theorem c2_counterexample :
    (svcTwoCalls 1).tool_calls.length = 2 ∧
    (appendedOf dbA convA (handleToolUsage dbA convA envA jlA svcTwoCalls 1)).map
      ChatMsg.role = ["system"] ∧
    ((appendedOf dbA convA (handleToolUsage dbA convA envA jlA svcTwoCalls 1)).filter
      (fun m => m.role == "tool")).length = 0 := by
  exact ⟨by rfl, by rfl, by rfl⟩

/-- C2, amended: whenever the assistant turn carries tool calls and the
first call's execution returns normally, the loop appends exactly one
system-role message reporting that first call's result (no tool-role
turns and no callId tagging exist in the code; later calls are ignored). -/
theorem c2_amended (db : Db) (conv : Conv) (env : ToolEnv) (jl : JsonLoads)
    (svc : Svc) (start : Nat) (tc : ToolCall) (rest : List ToolCall)
    (result : Option String)
    (hc : (svc start).tool_calls = tc :: rest)
    (hr : firstToolOutcome env jl tc = .ok result) :
    appendedOf db conv (handleToolUsage db conv env jl svc start) =
      [⟨"system", toolInfoContent tc.function.name result⟩] := by
  rw [handleToolUsage_eq_withCall db conv env jl svc start tc rest result hc hr]
  simp [appendedOf]

/-- C2, witness: concrete run of the amended statement on a two-call
assistant turn. -/
theorem c2_witness :
    appendedOf dbA convA (handleToolUsage dbA convA envA jlA svcTwoCalls 1) =
      [⟨"system", toolInfoContent "Calculator" (some "ERROR: You can\x27t divide by zero!")⟩] :=
  c2_amended dbA convA envA jlA svcTwoCalls 1
    ⟨"call_1", ⟨"Calculator", argsDivStr⟩⟩
    [⟨"call_2", ⟨"Calculator", argsDivStr⟩⟩]
    (some "ERROR: You can\x27t divide by zero!") (by rfl) (by rfl)

/-- C3, counterexample: in a tool-flow turn the catalogue is passed only
on the first completion request; the follow-up request after tool
execution offers no tools, so the catalogue is not offered on every
completion request of the turn. -/
theorem c3_counterexample :
    toolsOfferedOf (handleToolUsage dbA convA envA jlA svcDivCall 1) = [true, false] ∧
    (toolsOfferedOf (handleToolUsage dbA convA envA jlA svcDivCall 1)).all
      (fun b => b) = false := by
  exact ⟨by rfl, by rfl⟩

/-- C3, amended: the definition listing returns the name, description and
parameter-schema records of the registered tools in registry order (each
wrapped in a `type: function` record), and the tool flow fetches it once
and passes it verbatim on the first completion request only — every later
request of the turn carries no tools. -/
theorem c3_amended (db : Db) (conv : Conv) (env : ToolEnv) (jl : JsonLoads)
    (svc : Svc) (start : Nat) :
    getToolsDefinitions.map (fun d => d.function.name) = registryTools.map toolName ∧
    getToolsDefinitions.map (fun d => d.function.description) =
      registryTools.map toolDescription ∧
    getToolsDefinitions.map (fun d => d.function.parameters) =
      registryTools.map toolParameters ∧
    getToolsDefinitions.map ToolDef.type = registryTools.map (fun _ => "function") ∧
    (∀ r, handleToolUsage db conv env jl svc start = .ok r →
      (r.requests.map (fun q => q.tools)).head? = some (some getToolsDefinitions) ∧
      ∀ q ∈ r.requests.drop 1, q.tools = none) := by
  refine ⟨rfl, rfl, rfl, rfl, ?_⟩
  intro r h
  cases hc : (svc start).tool_calls with
  | nil =>
    rw [handleToolUsage_eq_noCalls db conv env jl svc start hc] at h
    injection h with h
    subst h
    simp
  | cons tc rest =>
    cases hr : firstToolOutcome env jl tc with
    | ok result =>
      rw [handleToolUsage_eq_withCall db conv env jl svc start tc rest result hc hr] at h
      injection h with h
      subst h
      refine ⟨rfl, ?_⟩
      intro q hq
      simp at hq
      rw [hq]
    | exn e =>
      rw [handleToolUsage_eq_exn db conv env jl svc start tc rest e hc hr] at h
      exact PyOutcome.noConfusion h
    | diverge =>
      rw [handleToolUsage_eq_diverge db conv env jl svc start tc rest hc hr] at h
      exact PyOutcome.noConfusion h

/-- C3, witness: concrete tool-flow run discharging the hypotheses of the
flow conjunct. -/
theorem c3_witness :
    (rDiv.requests.map (fun q => q.tools)).head? = some (some getToolsDefinitions) :=
  ((c3_amended dbA convA envA jlA svcDivCall 1).2.2.2.2 rDiv (by rfl)).1

/-- C4, code-bug record: `OpenAIService.get_response` catches every client
exception and returns the fixed user-facing string through the normal
return channel, so a completion-service failure is never surfaced as an
error outcome distinct from a reply. -/
theorem c4_bug (client : LLMClient) (context : List ChatMsg)
    (tools : Option (List ToolDef)) (e : String)
    (h : client context tools = .error e) :
    getResponse client context tools = .errText llmErrorText := by
  unfold getResponse
  rw [h]

/-- C4, witness: a client that raises an authentication error yields the
disguised user-facing text. -/
theorem c4_witness :
    getResponse clientFail [] none = .errText llmErrorText :=
  c4_bug clientFail [] none "AuthenticationError" rfl

/-- C5, counterexample: the assembled first message's content is exactly
the persona instruction; it is not the claimed concatenation of persona,
"Related Threads" block and date/time (shown at a concrete run with no
memories and a fixed clock reading). -/
theorem c5_counterexample :
    (prepareContext dbA convA).context.head?.map ChatMsg.content = some "P" ∧
    (prepareContext dbA convA).context.head?.map ChatMsg.content ≠
      some (specClaimedSystemContent "P" [] "2026-10-12 12:00") := by
  exact ⟨rfl, by decide⟩

/-- C5, amended: the first element of the assembled message list is a
single system message whose content is exactly the resolved persona
instruction (conversation override first, else the active main persona,
else the hardcoded fallback); no memory retrieval and no date/time are
included, and the rest of the list is the recent history verbatim. -/
theorem c5_amended (db : Db) (conv : Conv) :
    (prepareContext db conv).context =
      (⟨"system",
        (match conv.system_prompt with
         | some p => p.1
         | none => (getActivePrompt db .mainPersona).1)⟩ : ChatMsg) ::
      (recentHistory db.history).map (fun m => ⟨m.role, m.content⟩) := by
  cases hsp : conv.system_prompt <;> simp [prepareContext, hsp]

/-- C6: when the completion service's assistant turn carries no tool
calls, the flow terminates with that turn's content as the reply and
persists exactly one assistant row carrying the audit fields (model name
used, prompt name used); the plain flow behaves the same way. -/
theorem c6_confirmed (db : Db) (conv : Conv) (env : ToolEnv) (jl : JsonLoads)
    (svc : Svc) (start : Nat)
    (h : (svc start).tool_calls = []) :
    handleToolUsage db conv env jl svc start = .ok
      { requests := [⟨(prepareContext db conv).modelName,
                      (prepareContext db conv).context, some getToolsDefinitions⟩],
        persisted := [⟨"assistant", (svc start).content,
                       (prepareContext db conv).modelName,
                       (prepareContext db conv).promptName⟩],
        reply := (svc start).content,
        finalContext := (prepareContext db conv).context }
    ∧ (getNormalResponse db conv svc start).persisted =
        [⟨"assistant", (svc start).content,
          (prepareContext db conv).modelName, (prepareContext db conv).promptName⟩]
    ∧ (getNormalResponse db conv svc start).reply = (svc start).content := by
  exact ⟨handleToolUsage_eq_noCalls db conv env jl svc start h, rfl, rfl⟩

/-- C6, witness: concrete run with a tool-free assistant turn. -/
theorem c6_witness :
    handleToolUsage dbA convA envA jlA svcNoTool 1 = .ok
      { requests := [⟨(prepareContext dbA convA).modelName,
                      (prepareContext dbA convA).context, some getToolsDefinitions⟩],
        persisted := [⟨"assistant", (svcNoTool 1).content,
                       (prepareContext dbA convA).modelName,
                       (prepareContext dbA convA).promptName⟩],
        reply := (svcNoTool 1).content,
        finalContext := (prepareContext dbA convA).context }
    ∧ (getNormalResponse dbA convA svcNoTool 1).persisted =
        [⟨"assistant", (svcNoTool 1).content,
          (prepareContext dbA convA).modelName, (prepareContext dbA convA).promptName⟩]
    ∧ (getNormalResponse dbA convA svcNoTool 1).reply = (svcNoTool 1).content :=
  c6_confirmed dbA convA envA jlA svcNoTool 1 (by rfl)

/-- C7, counterexample: the raw arguments fail to parse and the turn still
completes normally, but the single appended message is system-role — the
claimed tool-role Turn for the call is never created. -/
theorem c7_counterexample :
    jlA argsBadStr = none ∧
    isOkOutcome (handleToolUsage dbA convA envA jlA svcBadArgs 1) = true ∧
    (appendedOf dbA convA (handleToolUsage dbA convA envA jlA svcBadArgs 1)).map
      ChatMsg.role = ["system"] ∧
    ((appendedOf dbA convA (handleToolUsage dbA convA envA jlA svcBadArgs 1)).filter
      (fun m => m.role == "tool")).length = 0 := by
  exact ⟨rfl, rfl, rfl, rfl⟩

/-- C7, amended: when the first tool call's raw arguments fail to parse,
the flow behaves exactly as if they had parsed to the empty argument set,
and (when the execution itself returns normally) it appends exactly one
system-role message for the call and completes the turn normally. -/
theorem c7_amended (db : Db) (conv : Conv) (env : ToolEnv) (jl : JsonLoads)
    (svc : Svc) (start : Nat) (tc : ToolCall) (rest : List ToolCall)
    (hc : (svc start).tool_calls = tc :: rest)
    (hp : jl tc.function.arguments = none) :
    firstToolOutcome env jl tc =
      firstToolOutcome env
        (fun s => if s = tc.function.arguments then some [] else jl s) tc ∧
    ∀ result, firstToolOutcome env jl tc = .ok result →
      appendedOf db conv (handleToolUsage db conv env jl svc start) =
        [⟨"system", toolInfoContent tc.function.name result⟩] ∧
      isOkOutcome (handleToolUsage db conv env jl svc start) = true := by
  constructor
  · simp [firstToolOutcome, hp]
  · intro result hr
    constructor
    · rw [handleToolUsage_eq_withCall db conv env jl svc start tc rest result hc hr]
      simp [appendedOf]
    · rw [handleToolUsage_eq_withCall db conv env jl svc start tc rest result hc hr]
      rfl

/-- C7, witness: concrete run with unparsable calculator arguments (the
execution returns Python `None`, reported as text `None`). -/
theorem c7_witness :
    appendedOf dbA convA (handleToolUsage dbA convA envA jlA svcBadArgs 1) =
      [⟨"system", toolInfoContent "Calculator" none⟩] ∧
    isOkOutcome (handleToolUsage dbA convA envA jlA svcBadArgs 1) = true :=
  (c7_amended dbA convA envA jlA svcBadArgs 1
    ⟨"call_1", ⟨"Calculator", argsBadStr⟩⟩ [] rfl rfl).2 none rfl

/-- C8: for every argument dict whose operation is `divide` and whose
second operand is `0`, the calculator returns the textual division-by-zero
error rather than raising, and in the tool flow the turn goes on to a
second, subsequent completion request. -/
theorem c8_confirmed (kwargs : Kwargs)
    (hop : kwget kwargs "operation" = .jstr "divide")
    (hy : kwget kwargs "y" = .jnum 0) :
    calcExecute kwargs = .ok (some "ERROR: You can\x27t divide by zero!") ∧
    ∀ (db : Db) (conv : Conv) (env : ToolEnv) (jl : JsonLoads) (svc : Svc)
      (start : Nat) (tc : ToolCall) (rest : List ToolCall),
      (svc start).tool_calls = tc :: rest →
      tc.function.name = "Calculator" →
      jl tc.function.arguments = some kwargs →
      requestCountOf (handleToolUsage db conv env jl svc start) = 2 := by
  have e1 : jIsStr (JVal.jstr "divide") "add" = false := rfl
  have e2 : jIsStr (JVal.jstr "divide") "subtract" = false := rfl
  have e3 : jIsStr (JVal.jstr "divide") "multiply" = false := rfl
  have e4 : jIsStr (JVal.jstr "divide") "divide" = true := rfl
  have e5 : pyEqZero (JVal.jnum 0) = true := rfl
  have hcalc : calcExecute kwargs = .ok (some "ERROR: You can\x27t divide by zero!") := by
    simp [calcExecute, hop, hy, e1, e2, e3, e4, e5]
  refine ⟨hcalc, ?_⟩
  intro db conv env jl svc start tc rest hc hname hargs
  have hg : getTool "Calculator" = some Tool.calculator := rfl
  have hr : firstToolOutcome env jl tc = .ok (some "ERROR: You can\x27t divide by zero!") := by
    simp only [firstToolOutcome, hname, hargs, Option.getD_some, hg, execTool, hcalc]
  rw [handleToolUsage_eq_withCall db conv env jl svc start tc rest _ hc hr]
  rfl

/-- C8, witness: the concrete 12-divided-by-0 scenario. -/
theorem c8_witness :
    calcExecute kwDiv = .ok (some "ERROR: You can\x27t divide by zero!") ∧
    requestCountOf (handleToolUsage dbA convA envA jlA svcDivCall 1) = 2 :=
  ⟨(c8_confirmed kwDiv rfl rfl).1,
   (c8_confirmed kwDiv rfl rfl).2 dbA convA envA jlA svcDivCall 1
     ⟨"call_1", ⟨"Calculator", argsDivStr⟩⟩ [] rfl rfl rfl⟩

/-- C9, code-bug record: the calculator raises a `TypeError` out of
`execute` for a present operation with a missing operand (`None + ...`),
and returns Python `None` (not text) for an unrecognised operation —
contradicting the contract that expected argument failures become
returned text and never raise. -/
theorem c9_bug :
    calcExecute [("operation", .jstr "add"), ("x", .jnum 1)] =
      .error "TypeError: unsupported operand type(s) for +" ∧
    calcExecute [("operation", .jstr "power"), ("x", .jnum 1), ("y", .jnum 2)] =
      .ok none := by
  exact ⟨rfl, rfl⟩

/-- Shape of `handle_message` when the classifier verdict is `YES`. -/
theorem handleMessage_eq_yes (db : Db) (conv : Conv) (env : ToolEnv)
    (jl : JsonLoads) (svc : Svc) (messageText : String)
    (hb : pyUpper (pyStrip (svc 0).content) = "YES") :
    handleMessage db conv env jl svc messageText =
      match handleToolUsage db conv env jl svc 1 with
      | .ok r => .ok { r with requests := classifierRequest db messageText :: r.requests }
      | .exn e => .exn e
      | .diverge => .diverge := by
  have hb2 : (pyUpper (pyStrip (svc 0).content) == "YES") = true := beq_iff_eq.mpr hb
  simp [handleMessage, hb2]

/-- Shape of `handle_message` when the classifier verdict is not `YES`. -/
theorem handleMessage_eq_no (db : Db) (conv : Conv) (env : ToolEnv)
    (jl : JsonLoads) (svc : Svc) (messageText : String)
    (hb : pyUpper (pyStrip (svc 0).content) ≠ "YES") :
    handleMessage db conv env jl svc messageText =
      .ok { getNormalResponse db conv svc 1 with
            requests := classifierRequest db messageText ::
              (getNormalResponse db conv svc 1).requests } := by
  have hb2 : (pyUpper (pyStrip (svc 0).content) == "YES") = false :=
    beq_eq_false_iff_ne.mpr hb
  simp [handleMessage, hb2]

/-- C10: every inbound message first triggers a separate classifier
completion request (with the intent-classifier prompt and model and no
tools); the tool catalogue is offered on the main completion exactly when
the stripped, uppercased classifier reply equals `YES`, and any other
reply is answered by one plain completion with no tools offered. -/
theorem c10_confirmed (db : Db) (conv : Conv) (env : ToolEnv) (jl : JsonLoads)
    (svc : Svc) (messageText : String) :
    (classifierRequest db messageText).tools = none ∧
    (pyUpper (pyStrip (svc 0).content) ≠ "YES" →
      handleMessage db conv env jl svc messageText = .ok
        { requests := [classifierRequest db messageText,
                       ⟨(prepareContext db conv).modelName,
                        (prepareContext db conv).context, none⟩],
          persisted := [⟨"assistant", (svc 1).content,
                         (prepareContext db conv).modelName,
                         (prepareContext db conv).promptName⟩],
          reply := (svc 1).content,
          finalContext := (prepareContext db conv).context }) ∧
    (pyUpper (pyStrip (svc 0).content) = "YES" →
      ∀ r, handleMessage db conv env jl svc messageText = .ok r →
        r.requests.head? = some (classifierRequest db messageText) ∧
        ((r.requests.map (fun q => q.tools)).drop 1).head? =
          some (some getToolsDefinitions)) := by
  refine ⟨rfl, ?_, ?_⟩
  · intro hne
    rw [handleMessage_eq_no db conv env jl svc messageText hne]
    rfl
  · intro heq r h
    rw [handleMessage_eq_yes db conv env jl svc messageText heq] at h
    cases hc : (svc 1).tool_calls with
    | nil =>
      rw [handleToolUsage_eq_noCalls db conv env jl svc 1 hc] at h
      injection h with h
      subst h
      exact ⟨rfl, rfl⟩
    | cons tc rest =>
      cases hr : firstToolOutcome env jl tc with
      | ok result =>
        rw [handleToolUsage_eq_withCall db conv env jl svc 1 tc rest result hc hr] at h
        injection h with h
        subst h
        exact ⟨rfl, rfl⟩
      | exn e =>
        rw [handleToolUsage_eq_exn db conv env jl svc 1 tc rest e hc hr] at h
        exact PyOutcome.noConfusion h
      | diverge =>
        rw [handleToolUsage_eq_diverge db conv env jl svc 1 tc rest hc hr] at h
        exact PyOutcome.noConfusion h

/-- C10, witness: a `NO` classification is answered by one plain
completion with no tools offered. -/
theorem c10_witness :
    handleMessage dbA convA envA jlA svcNoTool "hello" = .ok
      { requests := [classifierRequest dbA "hello",
                     ⟨(prepareContext dbA convA).modelName,
                      (prepareContext dbA convA).context, none⟩],
        persisted := [⟨"assistant", (svcNoTool 1).content,
                       (prepareContext dbA convA).modelName,
                       (prepareContext dbA convA).promptName⟩],
        reply := (svcNoTool 1).content,
        finalContext := (prepareContext dbA convA).context } :=
  (c10_confirmed dbA convA envA jlA svcNoTool "hello").2.1 (by decide)

end Synthia
